import Mathlib

/-!
Verification of the Geoconnex MCP server (`src/main.py`) against its
natural-language specification.

The program is a thin integration layer: four tool functions that build
SPARQL query text, POST it to a fixed endpoint (or GET a fixed document),
and shape the parsed SPARQL-JSON result.  We embed it shallowly:

* JSON values are an inductive `Json` type (numbers as `Int`, which is
  adequate because the program performs no arithmetic on them);
* the network is a function `net : String → HttpResponse`: the response
  the remote endpoint would return for a given request body (for the GET
  tool, for a given URL).  `HttpResponse` carries the status code, the
  body text, and `json?`, the result of parsing the body as JSON
  (`some j` when the body is valid JSON parsing to `j`, `none` otherwise),
  standing in for `response.json()` of the `requests` library;
* Python exceptions become an `Except PyError` result.  `PyError`
  distinguishes the exception classes the program can raise:
  `requests.HTTPError` (from `raise_for_status`), `ValueError`,
  `AssertionError`, `KeyError` and `TypeError`.

Python-semantics fine points modelled faithfully:

* `raise_for_status` raises exactly for status codes in `[400, 600)`
  (client and server errors), as the `requests` library implements it;
* `assert result` uses Python truthiness (`Json.truthy`);
* `"results" in result` is Python's membership test: key lookup on a
  dict, element equality on a list, substring test on a string, and
  `TypeError` on non-container values;
* `result["results"]` raises `KeyError` on a dict without the key and
  `TypeError` on any non-dict (string subscripts);
* `for res in x` iterates list elements, dict keys, or the characters of
  a string, and raises `TypeError` on non-iterables.
-/

/-- JSON values, as produced by `response.json()`.  Objects keep their
fields as an ordered association list; `json.loads` produces unique keys,
and lookup takes the first match. -/
inductive Json where
  | null : Json
  | bool : Bool → Json
  | num : Int → Json
  | str : String → Json
  | arr : List Json → Json
  | obj : List (String × Json) → Json

/-- The Python exception classes the program can raise. -/
inductive PyError where
  | httpError : Nat → PyError
  | valueError : String → PyError
  | assertionError : PyError
  | keyError : String → PyError
  | typeError : PyError
deriving DecidableEq

/-- Python truthiness of a JSON value (`assert result`): `None`, `False`,
`0`, `""`, `[]` and `\x7b\x7d` are falsy, everything else truthy. -/
def Json.truthy : Json → Bool
  | .null => false
  | .bool b => b
  | .num n => n != 0
  | .str s => s != ""
  | .arr xs => !xs.isEmpty
  | .obj fs => !fs.isEmpty

/-- First-match lookup in an object's field list (Python dict lookup;
keys of a parsed JSON dict are unique). -/
def lookupField : List (String × Json) → String → Option Json
  | [], _ => none
  | (k, v) :: t, key => if k == key then some v else lookupField t key

/-- Prefix test on character lists (helper for Python's substring `in`). -/
def listIsPre : List Char → List Char → Bool
  | [], _ => true
  | _ :: _, [] => false
  | a :: as, b :: bs => a == b && listIsPre as bs

/-- Substring test on character lists: `listHasSub hay needle` holds when
`needle` occurs contiguously in `hay`. -/
def listHasSub : List Char → List Char → Bool
  | [], needle => listIsPre needle []
  | h :: t, needle => listIsPre needle (h :: t) || listHasSub t needle

/-- Python's membership test `key in v` for a string key: key lookup on a
dict, element equality on a list, substring test on a string; raises
`TypeError` on values that support no membership test. -/
def Json.member : Json → String → Except PyError Bool
  | .obj fs, key => Except.ok (lookupField fs key).isSome
  | .arr xs, key =>
    Except.ok (xs.any (fun x => match x with | Json.str s => s == key | _ => false))
  | .str s, key => Except.ok (listHasSub s.data key.data)
  | _, _ => Except.error PyError.typeError

/-- Python's subscript `v[key]` for a string key: dict lookup raising
`KeyError` when absent; `TypeError` on every non-dict value (lists and
strings take integer subscripts only). -/
def Json.subscript : Json → String → Except PyError Json
  | .obj fs, key =>
    match lookupField fs key with
    | some v => Except.ok v
    | none => Except.error (PyError.keyError key)
  | _, _ => Except.error PyError.typeError

/-- Python iteration `for x in v`: list elements, dict keys, the
characters of a string; `TypeError` on non-iterables. -/
def pyIter : Json → Except PyError (List Json)
  | .arr xs => Except.ok xs
  | .obj fs => Except.ok (fs.map (fun p => Json.str p.1))
  | .str s => Except.ok (s.data.map (fun c => Json.str (String.mk [c])))
  | _ => Except.error PyError.typeError

/-- An HTTP response as the program observes it: status code, body text,
and `json?`, the result of parsing the body as JSON (`some j` exactly
when the body is valid JSON parsing to `j`). -/
structure HttpResponse where
  status : Nat
  text : String
  json? : Option Json

/-- Model of `requests.Response.raise_for_status`: raises `HTTPError`
exactly for 4xx client-error and 5xx server-error status codes. -/
def raise_for_status (r : HttpResponse) : Except PyError Unit :=
  if 400 ≤ r.status ∧ r.status < 600 then Except.error (PyError.httpError r.status)
  else Except.ok ()

/-- The fixed SPARQL endpoint URL (`GEOCONNEX_GRAPH` in `main.py`). -/
def GEOCONNEX_GRAPH : String := "https://graph.geoconnex.us/"

/-- Model of `query_geoconnex(query_text)`: POSTs `query_text` to the
fixed endpoint (`net query_text` is the response the endpoint returns for
that body), checks the status with `raise_for_status`, then parses the
body as JSON, translating a JSON decode failure into a `ValueError`
carrying the raw body text. -/
def query_geoconnex (net : String → HttpResponse) (query_text : String) :
    Except PyError Json :=
  let response := net query_text
  match raise_for_status response with
  | Except.error e => Except.error e
  | Except.ok _ =>
    match response.json? with
    | some j => Except.ok j
    | none =>
      Except.error
        (PyError.valueError ("Invalid JSON response from Geoconnex: " ++ response.text))

/-- The fixed SHACL shape document URL in `geoconnex_shacl_shape`. -/
def shacl_url : String :=
  "https://raw.githubusercontent.com/internetofwater/nabu/refs/heads/main/shacl_validator/shapes/geoconnex.ttl"

/-- Model of the `geoconnex_shacl_shape` tool: one GET of the fixed URL
(`net_get shacl_url`), `raise_for_status`, then the raw body text. -/
def geoconnex_shacl_shape (net_get : String → HttpResponse) :
    Except PyError String :=
  let response := net_get shacl_url
  match raise_for_status response with
  | Except.error e => Except.error e
  | Except.ok _ => Except.ok response.text

/-- Model of the `explore_geoconnex_db` tool: forwards the caller's query
text to `query_geoconnex` unchanged and returns its result (the parsed
JSON value) unchanged. -/
def explore_geoconnex_db (net : String → HttpResponse) (sparql_query : String) :
    Except PyError Json :=
  query_geoconnex net sparql_query

/-- Text of the river-name query before the substituted `river_name`
(the rendered f-string of `get_geoconnex_pid_from_river_name`, up to the
opening quote of the `BIND`). -/
def pid_query_pre : String :=
  "\n    PREFIX hyf: <https://www.opengis.net/def/schema/hy_features/hyf/>\n    PREFIX gsp: <http://www.opengis.net/ont/geosparql#>\n    PREFIX schema: <https://schema.org/>\n\n    SELECT DISTINCT ?mainstem ?name ?wkt\n    WHERE \x7b\n    BIND(\""

/-- Text of the river-name query after the substituted `river_name`. -/
def pid_query_post : String :=
  "\" AS ?searchString)\n    \n    # flowpath allows us to filter by mainstems\n    ?mainstem a hyf:HY_FlowPath ;\n                schema:name ?name ;\n                gsp:hasGeometry/gsp:asWKT ?wkt .\n\n    # Case-insensitive substring match\n    FILTER(CONTAINS(LCASE(STR(?name)), LCASE(STR(?searchString))))\n    \x7d\n    ORDER BY ?name\n    "

/-- The SPARQL query text that `get_geoconnex_pid_from_river_name` builds:
the f-string with `river_name` substituted verbatim. -/
def get_geoconnex_pid_query (river_name : String) : String :=
  pid_query_pre ++ river_name ++ pid_query_post

/-- Text of the dataset query before the substituted `pid` (the rendered
f-string of `get_datasets_for_geoconnex_pid`, up to the opening `<` of
the `VALUES` IRI). -/
def datasets_query_pre : String :=
  "\n    PREFIX schema: <https://schema.org/>\n    PREFIX gsp: <http://www.opengis.net/ont/geosparql#>\n    PREFIX hyf: <https://www.opengis.net/def/schema/hy_features/hyf/>\n    \n    SELECT DISTINCT ?monitoringLocation ?siteName ?datasetDescription ?type ?url\n                    ?variableMeasured ?variableUnit ?measurementTechnique ?temporalCoverage\n                    ?distributionName ?distributionURL ?distributionFormat ?wkt\n    WHERE \x7b\n        VALUES ?mainstem \x7b <"

/-- Text of the dataset query after the substituted `pid`. -/
def datasets_query_post : String :=
  "> \x7d\n        \n        ?monitoringLocation hyf:referencedPosition/hyf:HY_IndirectPosition/hyf:linearElement ?mainstem ;\n                            schema:subjectOf ?item ;\n                            hyf:HydroLocationType ?type ;\n                            gsp:hasGeometry/gsp:asWKT ?wkt .\n\n        ?item schema:name ?siteName ;\n              schema:temporalCoverage ?temporalCoverage ;\n              schema:url ?url ;\n              schema:variableMeasured ?variableMeasured .\n\n        ?variableMeasured schema:description ?datasetDescription ;\n                          schema:name ?variableMeasuredName ;\n                          schema:unitText ?variableUnit ;\n                          schema:measurementTechnique ?measurementTechnique .\n\n        OPTIONAL \x7b\n            ?item schema:distribution ?distribution .\n            ?distribution schema:name ?distributionName ;\n                          schema:contentUrl ?distributionURL ;\n                          schema:encodingFormat ?distributionFormat .\n        \x7d\n\n        # Filter datasets by the desired variable description\n        FILTER(REGEX(?datasetDescription, \"temperature\", \"i\"))\n    \x7d\n    ORDER BY ?siteName\n    LIMIT 5\n    "

/-- The SPARQL query text that `get_datasets_for_geoconnex_pid` builds
(the local variable `query`): the f-string with `pid` substituted
verbatim. -/
def get_datasets_query (pid : String) : String :=
  datasets_query_pre ++ pid ++ datasets_query_post

/-- Result shaping of `get_geoconnex_pid_from_river_name` after
`query_geoconnex` returns: `assert result`, `assert "results" in result`,
then the `for`-loop that returns `res["mainstem"]["value"]` of the first
binding and falls through to `"No PID found"` when the iteration is
empty. -/
def pid_result_shape (result : Json) : Except PyError Json :=
  if result.truthy = false then Except.error PyError.assertionError
  else
    (result.member "results").bind fun hasResults =>
      if hasResults = false then Except.error PyError.assertionError
      else
        (result.subscript "results").bind fun results =>
          (results.subscript "bindings").bind fun bindings =>
            (pyIter bindings).bind fun items =>
              match items with
              | [] => Except.ok (Json.str "No PID found")
              | res :: _ => (res.subscript "mainstem").bind fun m => m.subscript "value"

/-- Model of the `get_geoconnex_pid_from_river_name` tool: build the
query text, run it through `query_geoconnex`, shape the result. -/
def get_geoconnex_pid_from_river_name (net : String → HttpResponse)
    (river_name : String) : Except PyError Json :=
  match query_geoconnex net (get_geoconnex_pid_query river_name) with
  | Except.error e => Except.error e
  | Except.ok result => pid_result_shape result

/-- Result shaping of `get_datasets_for_geoconnex_pid` after
`query_geoconnex` returns: the same two assertions, then
`result["results"]["bindings"]` returned unmodified. -/
def datasets_result_shape (result : Json) : Except PyError Json :=
  if result.truthy = false then Except.error PyError.assertionError
  else
    (result.member "results").bind fun hasResults =>
      if hasResults = false then Except.error PyError.assertionError
      else
        (result.subscript "results").bind fun results => results.subscript "bindings"

/-- Model of the `get_datasets_for_geoconnex_pid` tool: build the query
text, run it through `query_geoconnex`, shape the result. -/
def get_datasets_for_geoconnex_pid (net : String → HttpResponse)
    (pid : String) : Except PyError Json :=
  match query_geoconnex net (get_datasets_query pid) with
  | Except.error e => Except.error e
  | Except.ok result => datasets_result_shape result

/-- Containment of `needle` as a contiguous substring of `hay`. -/
def strContains (hay needle : String) : Prop :=
  ∃ s t : List Char, s ++ needle.data ++ t = hay.data

/-- Fixture: endpoint answering 404 with a non-JSON body. -/
def netHttpErr : String → HttpResponse := fun _ => ⟨404, "Not Found", none⟩

/-- Fixture: endpoint answering 200 with an HTML (non-JSON) body. -/
def netBadJson : String → HttpResponse := fun _ => ⟨200, "<html>error</html>", none⟩

/-- Fixture: endpoint answering 200 with the body `\x7b\x7d` (empty JSON
object). -/
def netOkEmptyObj : String → HttpResponse := fun _ => ⟨200, "\x7b\x7d", some (Json.obj [])⟩

/-- Fixture: endpoint answering 200 with the body ` \x7b \x7d ` — different
text from `netOkEmptyObj`, but the same parsed JSON value. -/
def netOkEmptyObjSpaced : String → HttpResponse :=
  fun _ => ⟨200, " \x7b \x7d ", some (Json.obj [])⟩

/-- Fixture: endpoint answering 304 Not Modified (a non-2xx status that
`raise_for_status` does not raise on) with a valid JSON body. -/
def netNotModified : String → HttpResponse := fun _ => ⟨304, "\x7b\x7d", some (Json.obj [])⟩

/-- Fixture: first binding of the mocked Snake response. -/
def snake_binding1 : Json :=
  Json.obj [("mainstem", Json.obj [("value", Json.str "https://geoconnex.us/ref/mainstems/123")])]

/-- Fixture: a second binding that the PID extraction must ignore. -/
def snake_binding2 : Json :=
  Json.obj [("mainstem", Json.obj [("value", Json.str "https://geoconnex.us/ref/mainstems/456")])]

/-- Fixture: endpoint answering a two-binding SPARQL-JSON result. -/
def netSnake : String → HttpResponse := fun _ =>
  ⟨200, "body",
    some (Json.obj [("results", Json.obj [("bindings", Json.arr [snake_binding1, snake_binding2])])])⟩

/-- Fixture: endpoint answering a zero-binding SPARQL-JSON result. -/
def netEmptyBindings : String → HttpResponse := fun _ =>
  ⟨200, "body", some (Json.obj [("results", Json.obj [("bindings", Json.arr [])])])⟩

/-- Fixture: endpoint answering 200 with the body `5` — a truthy parsed
value that is not a container. -/
def netTruthyNum : String → HttpResponse := fun _ => ⟨200, "5", some (Json.num 5)⟩

/-- Fixture: endpoint answering a truthy JSON object without a "results"
key. -/
def netNoResults : String → HttpResponse := fun _ =>
  ⟨200, "body", some (Json.obj [("status", Json.str "done")])⟩

/-- Fixture: endpoint answering a result whose "results" object has no
"bindings" key. -/
def netMissingBindings : String → HttpResponse := fun _ =>
  ⟨200, "body", some (Json.obj [("results", Json.obj [("other", Json.null)])])⟩

/-- Fixture: a river name carrying SPARQL syntax, as an injection probe. -/
def injection_name : String := "x\") \x7d ORDER BY ?name"

/-- Fixture: endpoint that recognises only the verbatim-substituted
river-name query for `injection_name` and fails every other request. -/
def netInjection : String → HttpResponse := fun s =>
  if s = pid_query_pre ++ injection_name ++ pid_query_post then
    ⟨200, "\x7b\x7d", some (Json.obj [])⟩
  else ⟨500, "", none⟩

/-- Fixture: document server answering 200 with Turtle text (not JSON). -/
def netShacl : String → HttpResponse :=
  fun _ => ⟨200, "@prefix sh: <http://www.w3.org/ns/shacl#> .", none⟩

/-- Character data of a concatenation is the concatenation of the data. -/
theorem strData_append : ∀ (a b : String), (a ++ b).data = a.data ++ b.data
  | ⟨_⟩, ⟨_⟩ => rfl

/-- Soundness of the executable prefix test. -/
theorem listIsPre_sound : ∀ (needle hay : List Char),
    listIsPre needle hay = true → ∃ t, needle ++ t = hay
  | [], hay, _ => ⟨hay, rfl⟩
  | a :: as, [], h => by simp [listIsPre] at h
  | a :: as, b :: bs, h => by
    simp only [listIsPre, Bool.and_eq_true, beq_iff_eq] at h
    obtain ⟨t, ht⟩ := listIsPre_sound as bs h.2
    exact ⟨t, by simp [h.1, ht]⟩

/-- Soundness of the executable substring test. -/
theorem listHasSub_sound : ∀ (hay needle : List Char),
    listHasSub hay needle = true → ∃ s t, s ++ needle ++ t = hay
  | [], needle, h => by
    obtain ⟨t, ht⟩ := listIsPre_sound needle [] h
    exact ⟨[], t, by simp [ht]⟩
  | c :: cs, needle, h => by
    simp only [listHasSub, Bool.or_eq_true] at h
    rcases h with h | h
    · obtain ⟨t, ht⟩ := listIsPre_sound needle (c :: cs) h
      exact ⟨[], t, by simp [ht]⟩
    · obtain ⟨s, t, hst⟩ := listHasSub_sound cs needle h
      exact ⟨c :: s, t, by simp [hst]⟩

/-- A verified substring test gives containment. -/
theorem strContains_of_hasSub (hay needle : String)
    (h : listHasSub hay.data needle.data = true) : strContains hay needle :=
  listHasSub_sound hay.data needle.data h

/-- Containment is preserved by prepending text. -/
theorem strContains_append_left (a b needle : String)
    (h : strContains b needle) : strContains (a ++ b) needle := by
  obtain ⟨s, t, hst⟩ := h
  exact ⟨a.data ++ s, t, by rw [strData_append, ← hst]; simp [List.append_assoc]⟩

/-- Containment is preserved by appending text. -/
theorem strContains_append_right (a b needle : String)
    (h : strContains a needle) : strContains (a ++ b) needle := by
  obtain ⟨s, t, hst⟩ := h
  exact ⟨s, t ++ b.data, by rw [strData_append, ← hst]; simp [List.append_assoc]⟩

set_option maxRecDepth 400000 in
/-- C4: for every input `pid`, the query text built by
`get_datasets_for_geoconnex_pid` contains the fixed case-insensitive
regular-expression filter on `?datasetDescription` with the hardcoded
substring "temperature", orders results by `?siteName`, and caps the
result count with the fixed literal `LIMIT 5` — all of them literal text
of the template, independent of the `pid` argument. -/
theorem C4_dataset_query_fixed_filter_order_limit (pid : String) :
    strContains (get_datasets_query pid)
      "FILTER(REGEX(?datasetDescription, \"temperature\", \"i\"))" ∧
    strContains (get_datasets_query pid) "ORDER BY ?siteName" ∧
    strContains (get_datasets_query pid) "LIMIT 5" := by
  refine ⟨?_, ?_, ?_⟩ <;>
    exact strContains_append_left (datasets_query_pre ++ pid) datasets_query_post _
      (strContains_of_hasSub _ _ (by decide))

set_option maxRecDepth 400000 in
/-- C5: for every `river_name`, the query text built by
`get_geoconnex_pid_from_river_name` contains the case-insensitive
substring filter that lower-cases both the stored `?name` and the bound
`?searchString`, binds the supplied name verbatim as `?searchString`,
restricts matches to `hyf:HY_FlowPath` entities, requests `DISTINCT`
results, and orders them by `?name`. -/
theorem C5_river_query_filter_shape (river_name : String) :
    strContains (get_geoconnex_pid_query river_name)
      "FILTER(CONTAINS(LCASE(STR(?name)), LCASE(STR(?searchString))))" ∧
    strContains (get_geoconnex_pid_query river_name)
      ("BIND(\"" ++ river_name ++ "\" AS ?searchString)") ∧
    strContains (get_geoconnex_pid_query river_name) "?mainstem a hyf:HY_FlowPath" ∧
    strContains (get_geoconnex_pid_query river_name)
      "SELECT DISTINCT ?mainstem ?name ?wkt" ∧
    strContains (get_geoconnex_pid_query river_name) "ORDER BY ?name" := by
  refine ⟨?_, ?_, ?_, ?_, ?_⟩
  · exact strContains_append_left (pid_query_pre ++ river_name) pid_query_post _
      (strContains_of_hasSub _ _ (by decide))
  · have h1 : pid_query_pre =
        "\n    PREFIX hyf: <https://www.opengis.net/def/schema/hy_features/hyf/>\n    PREFIX gsp: <http://www.opengis.net/ont/geosparql#>\n    PREFIX schema: <https://schema.org/>\n\n    SELECT DISTINCT ?mainstem ?name ?wkt\n    WHERE \x7b\n    " ++
        "BIND(\"" := rfl
    have h2 : pid_query_post = "\" AS ?searchString)" ++
        "\n    \n    # flowpath allows us to filter by mainstems\n    ?mainstem a hyf:HY_FlowPath ;\n                schema:name ?name ;\n                gsp:hasGeometry/gsp:asWKT ?wkt .\n\n    # Case-insensitive substring match\n    FILTER(CONTAINS(LCASE(STR(?name)), LCASE(STR(?searchString))))\n    \x7d\n    ORDER BY ?name\n    " := rfl
    refine ⟨("\n    PREFIX hyf: <https://www.opengis.net/def/schema/hy_features/hyf/>\n    PREFIX gsp: <http://www.opengis.net/ont/geosparql#>\n    PREFIX schema: <https://schema.org/>\n\n    SELECT DISTINCT ?mainstem ?name ?wkt\n    WHERE \x7b\n    " :
        String).data,
      ("\n    \n    # flowpath allows us to filter by mainstems\n    ?mainstem a hyf:HY_FlowPath ;\n                schema:name ?name ;\n                gsp:hasGeometry/gsp:asWKT ?wkt .\n\n    # Case-insensitive substring match\n    FILTER(CONTAINS(LCASE(STR(?name)), LCASE(STR(?searchString))))\n    \x7d\n    ORDER BY ?name\n    " :
        String).data, ?_⟩
    show _ = (get_geoconnex_pid_query river_name).data
    rw [get_geoconnex_pid_query, h1, h2]
    simp [strData_append, List.append_assoc]
  · exact strContains_append_left (pid_query_pre ++ river_name) pid_query_post _
      (strContains_of_hasSub _ _ (by decide))
  · exact strContains_append_right pid_query_pre (river_name ++ pid_query_post) _
      (strContains_of_hasSub _ _ (by decide))
  · exact strContains_append_left (pid_query_pre ++ river_name) pid_query_post _
      (strContains_of_hasSub _ _ (by decide))

/-- Helper: on a status that `raise_for_status` accepts and a body that
parses as JSON, `query_geoconnex` returns the parsed value. -/
theorem query_geoconnex_ok (net : String → HttpResponse) (q : String) (r : Json)
    (hstatus : ¬ (400 ≤ (net q).status ∧ (net q).status < 600))
    (hjson : (net q).json? = some r) :
    query_geoconnex net q = Except.ok r := by
  simp only [query_geoconnex, raise_for_status]
  rw [if_neg hstatus]
  simp [hjson]

/-- Helper: on a 4xx/5xx status, `query_geoconnex` raises the HTTP error
before looking at the body. -/
theorem query_geoconnex_httpError (net : String → HttpResponse) (q : String)
    (h : 400 ≤ (net q).status ∧ (net q).status < 600) :
    query_geoconnex net q = Except.error (PyError.httpError (net q).status) := by
  simp only [query_geoconnex, raise_for_status]
  rw [if_pos h]

/-- Helper: on an accepted status with a body that is not valid JSON,
`query_geoconnex` raises a `ValueError` carrying the raw body text. -/
theorem query_geoconnex_badJson (net : String → HttpResponse) (q : String)
    (hstatus : ¬ (400 ≤ (net q).status ∧ (net q).status < 600))
    (hjson : (net q).json? = none) :
    query_geoconnex net q =
      Except.error
        (PyError.valueError ("Invalid JSON response from Geoconnex: " ++ (net q).text)) := by
  simp only [query_geoconnex, raise_for_status]
  rw [if_neg hstatus]
  simp [hjson]

/-- Helper: the PID tool reduces to its result shaping once the query
succeeds. -/
theorem pid_tool_shape (net : String → HttpResponse) (river_name : String) (r : Json)
    (hstatus : ¬ (400 ≤ (net (get_geoconnex_pid_query river_name)).status ∧
        (net (get_geoconnex_pid_query river_name)).status < 600))
    (hjson : (net (get_geoconnex_pid_query river_name)).json? = some r) :
    get_geoconnex_pid_from_river_name net river_name = pid_result_shape r := by
  simp only [get_geoconnex_pid_from_river_name]
  rw [query_geoconnex_ok net _ r hstatus hjson]

/-- Helper: the dataset tool reduces to its result shaping once the query
succeeds. -/
theorem datasets_tool_shape (net : String → HttpResponse) (pid : String) (r : Json)
    (hstatus : ¬ (400 ≤ (net (get_datasets_query pid)).status ∧
        (net (get_datasets_query pid)).status < 600))
    (hjson : (net (get_datasets_query pid)).json? = some r) :
    get_datasets_for_geoconnex_pid net pid = datasets_result_shape r := by
  simp only [get_datasets_for_geoconnex_pid]
  rw [query_geoconnex_ok net _ r hstatus hjson]

/-- C1: for every parsed SPARQL-JSON result whose `results.bindings` list
is non-empty, `get_geoconnex_pid_from_river_name` returns the `value`
field of the `mainstem` entry of the first binding, ignoring all later
bindings; for a result whose bindings list is empty it returns exactly
the sentinel `"No PID found"` without raising. -/
theorem C1_first_binding_pid (net : String → HttpResponse) (river_name : String)
    (fs rfs bfs mfs : List (String × Json)) (rest : List Json) (v : Json)
    (hstatus : ¬ (400 ≤ (net (get_geoconnex_pid_query river_name)).status ∧
        (net (get_geoconnex_pid_query river_name)).status < 600))
    (hjson : (net (get_geoconnex_pid_query river_name)).json? = some (Json.obj fs))
    (hne : fs.isEmpty = false)
    (hres : lookupField fs "results" = some (Json.obj rfs)) :
    (lookupField rfs "bindings" = some (Json.arr (Json.obj bfs :: rest)) →
      lookupField bfs "mainstem" = some (Json.obj mfs) →
      lookupField mfs "value" = some v →
      get_geoconnex_pid_from_river_name net river_name = Except.ok v) ∧
    (lookupField rfs "bindings" = some (Json.arr []) →
      get_geoconnex_pid_from_river_name net river_name =
        Except.ok (Json.str "No PID found")) := by
  have htool := pid_tool_shape net river_name (Json.obj fs) hstatus hjson
  constructor
  · intro hb hm hv
    rw [htool]
    simp [pid_result_shape, Except.bind, Json.truthy, Json.member, Json.subscript, pyIter,
      hne, hres, hb, hm, hv]
  · intro hb
    rw [htool]
    simp [pid_result_shape, Except.bind, Json.truthy, Json.member, Json.subscript, pyIter,
      hne, hres, hb]

/-- C6: for every parsed SPARQL-JSON result, `get_datasets_for_geoconnex_pid`
returns the value of `results.bindings` unmodified — the same ordered
list of binding objects, with no client-side filtering or truncation. -/
theorem C6_datasets_bindings_unmodified (net : String → HttpResponse) (pid : String)
    (fs rfs : List (String × Json)) (l : List Json)
    (hstatus : ¬ (400 ≤ (net (get_datasets_query pid)).status ∧
        (net (get_datasets_query pid)).status < 600))
    (hjson : (net (get_datasets_query pid)).json? = some (Json.obj fs))
    (hne : fs.isEmpty = false)
    (hres : lookupField fs "results" = some (Json.obj rfs))
    (hb : lookupField rfs "bindings" = some (Json.arr l)) :
    get_datasets_for_geoconnex_pid net pid = Except.ok (Json.arr l) := by
  rw [datasets_tool_shape net pid (Json.obj fs) hstatus hjson]
  simp [datasets_result_shape, Except.bind, Json.truthy, Json.member, Json.subscript, hne, hres, hb]

/-- C10: in `get_geoconnex_pid_from_river_name`, when the parsed result
passes both assertions, a missing `bindings` key under `results`, a
missing `mainstem` key in the first binding, or a missing `value` key
under `mainstem` each raise an uncaught `KeyError` naming the missing
key — not the sentinel; the sentinel is returned for the existing empty
bindings list. -/
theorem C10_missing_keys_raise (net : String → HttpResponse) (river_name : String)
    (fs rfs : List (String × Json))
    (hstatus : ¬ (400 ≤ (net (get_geoconnex_pid_query river_name)).status ∧
        (net (get_geoconnex_pid_query river_name)).status < 600))
    (hjson : (net (get_geoconnex_pid_query river_name)).json? = some (Json.obj fs))
    (hne : fs.isEmpty = false)
    (hres : lookupField fs "results" = some (Json.obj rfs)) :
    (lookupField rfs "bindings" = none →
      get_geoconnex_pid_from_river_name net river_name =
        Except.error (PyError.keyError "bindings")) ∧
    (∀ (bfs : List (String × Json)) (rest : List Json),
      lookupField rfs "bindings" = some (Json.arr (Json.obj bfs :: rest)) →
      lookupField bfs "mainstem" = none →
      get_geoconnex_pid_from_river_name net river_name =
        Except.error (PyError.keyError "mainstem")) ∧
    (∀ (bfs mfs : List (String × Json)) (rest : List Json),
      lookupField rfs "bindings" = some (Json.arr (Json.obj bfs :: rest)) →
      lookupField bfs "mainstem" = some (Json.obj mfs) →
      lookupField mfs "value" = none →
      get_geoconnex_pid_from_river_name net river_name =
        Except.error (PyError.keyError "value")) ∧
    (lookupField rfs "bindings" = some (Json.arr []) →
      get_geoconnex_pid_from_river_name net river_name =
        Except.ok (Json.str "No PID found")) := by
  have htool := pid_tool_shape net river_name (Json.obj fs) hstatus hjson
  refine ⟨?_, ?_, ?_, ?_⟩
  · intro hb
    rw [htool]
    simp [pid_result_shape, Except.bind, Json.truthy, Json.member, Json.subscript, pyIter,
      hne, hres, hb]
  · intro bfs rest hb hm
    rw [htool]
    simp [pid_result_shape, Except.bind, Json.truthy, Json.member, Json.subscript, pyIter,
      hne, hres, hb, hm]
  · intro bfs mfs rest hb hm hv
    rw [htool]
    simp [pid_result_shape, Except.bind, Json.truthy, Json.member, Json.subscript, pyIter,
      hne, hres, hb, hm, hv]
  · intro hb
    rw [htool]
    simp [pid_result_shape, Except.bind, Json.truthy, Json.member, Json.subscript, pyIter,
      hne, hres, hb]

/-- C8: caller-supplied text is substituted into the query templates
verbatim — the built query is literally the fixed prefix, the supplied
string unchanged, and the fixed suffix — and each tool's behaviour
depends on the network only through the response to exactly that
verbatim-substituted query text (no escaping, quoting transformation or
validation happens between the tool argument and the request body). -/
theorem C8_verbatim_substitution :
    (∀ river_name, get_geoconnex_pid_query river_name =
        pid_query_pre ++ river_name ++ pid_query_post) ∧
    (∀ pid, get_datasets_query pid =
        datasets_query_pre ++ pid ++ datasets_query_post) ∧
    (∀ (net net' : String → HttpResponse) (river_name : String),
      net (pid_query_pre ++ river_name ++ pid_query_post) =
        net' (pid_query_pre ++ river_name ++ pid_query_post) →
      get_geoconnex_pid_from_river_name net river_name =
        get_geoconnex_pid_from_river_name net' river_name) ∧
    (∀ (net net' : String → HttpResponse) (pid : String),
      net (datasets_query_pre ++ pid ++ datasets_query_post) =
        net' (datasets_query_pre ++ pid ++ datasets_query_post) →
      get_datasets_for_geoconnex_pid net pid =
        get_datasets_for_geoconnex_pid net' pid) := by
  refine ⟨fun _ => rfl, fun _ => rfl, ?_, ?_⟩
  · intro net net' river_name h
    simp only [get_geoconnex_pid_from_river_name, query_geoconnex,
      get_geoconnex_pid_query]
    rw [h]
  · intro net net' pid h
    simp only [get_datasets_for_geoconnex_pid, query_geoconnex, get_datasets_query]
    rw [h]

/-- C2 (amended): the Query Executor fails with an HTTP-error on any 4xx
or 5xx response status before any parsing; on other statuses, if the body
is not valid JSON it raises a `ValueError` whose message contains the raw
response body text, and if the body is valid JSON it returns the parsed
structure unmodified. -/
theorem C2_executor_contract (net : String → HttpResponse) (query_text : String) :
    (400 ≤ (net query_text).status ∧ (net query_text).status < 600 →
      query_geoconnex net query_text =
        Except.error (PyError.httpError (net query_text).status)) ∧
    (¬ (400 ≤ (net query_text).status ∧ (net query_text).status < 600) →
      (net query_text).json? = none →
      query_geoconnex net query_text =
        Except.error (PyError.valueError
          ("Invalid JSON response from Geoconnex: " ++ (net query_text).text)) ∧
      strContains ("Invalid JSON response from Geoconnex: " ++ (net query_text).text)
        (net query_text).text) ∧
    (∀ j : Json, ¬ (400 ≤ (net query_text).status ∧ (net query_text).status < 600) →
      (net query_text).json? = some j →
      query_geoconnex net query_text = Except.ok j) := by
  refine ⟨fun h => query_geoconnex_httpError net query_text h,
    fun h1 h2 => ⟨query_geoconnex_badJson net query_text h1 h2, ?_⟩,
    fun j h1 h2 => query_geoconnex_ok net query_text j h1 h2⟩
  exact ⟨("Invalid JSON response from Geoconnex: " : String).data, [],
    by simp [strData_append]⟩

/-- C2 (counterexample): a 304 Not Modified response is not a 2xx status,
yet `query_geoconnex` does not fail with an HTTP-error there — the
`requests` library's `raise_for_status` raises only for 4xx/5xx — and
instead returns the parsed JSON body. -/
theorem C2_counterexample_304 :
    (netNotModified "SELECT").status = 304 ∧
    ¬ (200 ≤ (netNotModified "SELECT").status ∧ (netNotModified "SELECT").status < 300) ∧
    query_geoconnex netNotModified "SELECT" = Except.ok (Json.obj []) :=
  ⟨rfl, by decide, rfl⟩

/-- C2 (witness): the amended executor contract applied to concrete
responses: a 404 raises the HTTP error, a 2xx HTML body raises the
`ValueError` carrying that body, a 2xx JSON body returns the parsed
value. -/
theorem C2_executor_contract_witness :
    query_geoconnex netHttpErr "SELECT" = Except.error (PyError.httpError 404) ∧
    query_geoconnex netBadJson "SELECT" =
      Except.error
        (PyError.valueError "Invalid JSON response from Geoconnex: <html>error</html>") ∧
    query_geoconnex netOkEmptyObj "SELECT" = Except.ok (Json.obj []) :=
  ⟨(C2_executor_contract netHttpErr "SELECT").1 (by decide),
   ((C2_executor_contract netBadJson "SELECT").2.1 (by decide) rfl).1,
   (C2_executor_contract netOkEmptyObj "SELECT").2.2 (Json.obj []) (by decide) rfl⟩

/-- C3 (amended): on an accepted status with a valid JSON body,
`explore_geoconnex_db` returns the response body parsed as JSON — the
body's JSON content, not its exact text. -/
theorem C3_explore_returns_parsed_json (net : String → HttpResponse)
    (sparql_query : String) (j : Json)
    (hstatus : ¬ (400 ≤ (net sparql_query).status ∧ (net sparql_query).status < 600))
    (hjson : (net sparql_query).json? = some j) :
    explore_geoconnex_db net sparql_query = Except.ok j :=
  query_geoconnex_ok net sparql_query j hstatus hjson

/-- C3 (counterexample): two 2xx responses with different body text but
the same JSON content give the same return value, so the tool's return
value is not the endpoint's response body as text. -/
theorem C3_counterexample_not_exact_text :
    (netOkEmptyObj "q").status = 200 ∧
    (netOkEmptyObjSpaced "q").status = 200 ∧
    (netOkEmptyObj "q").text ≠ (netOkEmptyObjSpaced "q").text ∧
    explore_geoconnex_db netOkEmptyObj "q" = explore_geoconnex_db netOkEmptyObjSpaced "q" ∧
    explore_geoconnex_db netOkEmptyObj "q" = Except.ok (Json.obj []) :=
  ⟨rfl, rfl, by decide, rfl, rfl⟩

/-- C3 (witness): the amended claim evaluated on a concrete mocked
response. -/
theorem C3_explore_returns_parsed_json_witness :
    explore_geoconnex_db netSnake "SELECT ?s WHERE \x7b \x7d" =
      Except.ok (Json.obj [("results",
        Json.obj [("bindings", Json.arr [snake_binding1, snake_binding2])])]) :=
  C3_explore_returns_parsed_json netSnake "SELECT ?s WHERE \x7b \x7d" _ (by decide) rfl

/-- C9 (amended): `geoconnex_shacl_shape` takes no input, performs a
single GET of the one fixed document URL (its behaviour depends on the
network only through the response at `shacl_url`), fails with an
HTTP-error on a 4xx/5xx status — the only statuses `raise_for_status`
raises for — and otherwise returns the raw response body as text,
without parsing or validating it (the body's `json?` field is never
consulted). -/
theorem C9_shacl_fetcher (net_get : String → HttpResponse) :
    (400 ≤ (net_get shacl_url).status ∧ (net_get shacl_url).status < 600 →
      geoconnex_shacl_shape net_get =
        Except.error (PyError.httpError (net_get shacl_url).status)) ∧
    (¬ (400 ≤ (net_get shacl_url).status ∧ (net_get shacl_url).status < 600) →
      geoconnex_shacl_shape net_get = Except.ok (net_get shacl_url).text) ∧
    (∀ net_get' : String → HttpResponse,
      net_get shacl_url = net_get' shacl_url →
      geoconnex_shacl_shape net_get = geoconnex_shacl_shape net_get') := by
  refine ⟨?_, ?_, ?_⟩
  · intro h
    simp only [geoconnex_shacl_shape, raise_for_status]
    rw [if_pos h]
  · intro h
    simp only [geoconnex_shacl_shape, raise_for_status]
    rw [if_neg h]
  · intro n h
    simp only [geoconnex_shacl_shape]
    rw [h]

/-- C9 (counterexample): a 304 Not Modified response from the shape
document URL is not a success status, yet `geoconnex_shacl_shape` does
not fail with an HTTP-error there — `raise_for_status` raises only for
4xx/5xx — and instead returns the body text. -/
theorem C9_counterexample_304 :
    (netNotModified shacl_url).status = 304 ∧
    ¬ (200 ≤ (netNotModified shacl_url).status ∧
        (netNotModified shacl_url).status < 300) ∧
    geoconnex_shacl_shape netNotModified = Except.ok "\x7b\x7d" :=
  ⟨rfl, by decide, rfl⟩

/-- C9 (witness): the fetcher contract evaluated on concrete responses:
a 200 Turtle document is returned as raw text, a 404 raises the HTTP
error. -/
theorem C9_shacl_fetcher_witness :
    geoconnex_shacl_shape netShacl =
      Except.ok "@prefix sh: <http://www.w3.org/ns/shacl#> ." ∧
    geoconnex_shacl_shape netHttpErr = Except.error (PyError.httpError 404) :=
  ⟨(C9_shacl_fetcher netShacl).2.1 (by decide),
   (C9_shacl_fetcher netHttpErr).1 (by decide)⟩

/-- Helper: Python subscripting never raises an `AssertionError`. -/
theorem subscript_ne_assertionError (j : Json) (k : String) :
    j.subscript k ≠ Except.error PyError.assertionError := by
  cases j <;> simp [Json.subscript]
  case obj fs => cases lookupField fs k <;> simp

/-- Helper: Python iteration never raises an `AssertionError`. -/
theorem pyIter_ne_assertionError (j : Json) :
    pyIter j ≠ Except.error PyError.assertionError := by
  cases j <;> simp [pyIter]

/-- Helper: a falsy result makes the first assertion of the PID shaper
fail. -/
theorem pid_result_shape_falsy (r : Json) (ht : r.truthy = false) :
    pid_result_shape r = Except.error PyError.assertionError := by
  simp [pid_result_shape, ht]

/-- Helper: a result without a "results" member makes an assertion of the
PID shaper fail. -/
theorem pid_result_shape_member_false (r : Json)
    (hm : r.member "results" = Except.ok false) :
    pid_result_shape r = Except.error PyError.assertionError := by
  cases ht : r.truthy
  · simp [pid_result_shape, ht]
  · simp [pid_result_shape, Except.bind, ht, hm]

/-- Helper: when the membership test itself raises, the PID shaper
propagates the `TypeError` (it does not turn it into an assertion). -/
theorem pid_result_shape_member_typeErr (r : Json) (ht : r.truthy = true)
    (hm : r.member "results" = Except.error PyError.typeError) :
    pid_result_shape r = Except.error PyError.typeError := by
  simp [pid_result_shape, Except.bind, ht, hm]

/-- Helper: once both assertions pass, the PID shaper can no longer raise
an `AssertionError`. -/
theorem pid_result_shape_no_assertion (r : Json) (ht : r.truthy = true)
    (hm : r.member "results" = Except.ok true) :
    pid_result_shape r ≠ Except.error PyError.assertionError := by
  have h1 : ¬ (r.truthy = false) := by simp [ht]
  simp only [pid_result_shape]
  rw [if_neg h1, hm]
  simp only [Except.bind]
  rw [if_neg (by simp : ¬ (true = false))]
  cases hs : r.subscript "results" with
  | error e =>
    simp only [Except.bind]
    intro hcon
    injection hcon with he
    exact subscript_ne_assertionError r "results" (by rw [hs, he])
  | ok results =>
    simp only [Except.bind]
    cases hb : results.subscript "bindings" with
    | error e =>
      simp only [Except.bind]
      intro hcon
      injection hcon with he
      exact subscript_ne_assertionError results "bindings" (by rw [hb, he])
    | ok bindings =>
      simp only [Except.bind]
      cases hi : pyIter bindings with
      | error e =>
        simp only [Except.bind]
        intro hcon
        injection hcon with he
        exact pyIter_ne_assertionError bindings (by rw [hi, he])
      | ok items =>
        simp only [Except.bind]
        cases items with
        | nil => simp
        | cons res rest =>
          show (res.subscript "mainstem").bind (fun m => m.subscript "value") ≠
            Except.error PyError.assertionError
          cases hms : res.subscript "mainstem" with
          | error e =>
            simp only [Except.bind]
            intro hcon
            injection hcon with he
            exact subscript_ne_assertionError res "mainstem" (by rw [hms, he])
          | ok m =>
            simp only [Except.bind]
            exact subscript_ne_assertionError m "value"

/-- Helper: a falsy result makes the first assertion of the dataset
shaper fail. -/
theorem datasets_result_shape_falsy (r : Json) (ht : r.truthy = false) :
    datasets_result_shape r = Except.error PyError.assertionError := by
  simp [datasets_result_shape, ht]

/-- Helper: a result without a "results" member makes an assertion of the
dataset shaper fail. -/
theorem datasets_result_shape_member_false (r : Json)
    (hm : r.member "results" = Except.ok false) :
    datasets_result_shape r = Except.error PyError.assertionError := by
  cases ht : r.truthy
  · simp [datasets_result_shape, ht]
  · simp [datasets_result_shape, Except.bind, ht, hm]

/-- Helper: when the membership test itself raises, the dataset shaper
propagates the `TypeError`. -/
theorem datasets_result_shape_member_typeErr (r : Json) (ht : r.truthy = true)
    (hm : r.member "results" = Except.error PyError.typeError) :
    datasets_result_shape r = Except.error PyError.typeError := by
  simp [datasets_result_shape, Except.bind, ht, hm]

/-- Helper: once both assertions pass, the dataset shaper can no longer
raise an `AssertionError`. -/
theorem datasets_result_shape_no_assertion (r : Json) (ht : r.truthy = true)
    (hm : r.member "results" = Except.ok true) :
    datasets_result_shape r ≠ Except.error PyError.assertionError := by
  have h1 : ¬ (r.truthy = false) := by simp [ht]
  simp only [datasets_result_shape]
  rw [if_neg h1, hm]
  simp only [Except.bind]
  rw [if_neg (by simp : ¬ (true = false))]
  cases hs : r.subscript "results" with
  | error e =>
    simp only [Except.bind]
    intro hcon
    injection hcon with he
    exact subscript_ne_assertionError r "results" (by rw [hs, he])
  | ok results =>
    simp only [Except.bind]
    exact subscript_ne_assertionError results "bindings"

/-- C7 (amended): a falsy parsed result, or one whose membership test
answers that "results" is absent, makes both tools fail with the
unconditional fatal `AssertionError`; a truthy non-container result
instead makes the membership test itself raise an uncaught `TypeError`;
and under the precondition that the result is truthy and contains
"results", the assertion branches of both tools are unreachable. -/
theorem C7_assertion_behavior (net : String → HttpResponse)
    (river_name pid : String) (r : Json)
    (hsP : ¬ (400 ≤ (net (get_geoconnex_pid_query river_name)).status ∧
        (net (get_geoconnex_pid_query river_name)).status < 600))
    (hjP : (net (get_geoconnex_pid_query river_name)).json? = some r)
    (hsD : ¬ (400 ≤ (net (get_datasets_query pid)).status ∧
        (net (get_datasets_query pid)).status < 600))
    (hjD : (net (get_datasets_query pid)).json? = some r) :
    (r.truthy = false →
      get_geoconnex_pid_from_river_name net river_name =
        Except.error PyError.assertionError ∧
      get_datasets_for_geoconnex_pid net pid = Except.error PyError.assertionError) ∧
    (r.member "results" = Except.ok false →
      get_geoconnex_pid_from_river_name net river_name =
        Except.error PyError.assertionError ∧
      get_datasets_for_geoconnex_pid net pid = Except.error PyError.assertionError) ∧
    (r.truthy = true → r.member "results" = Except.error PyError.typeError →
      get_geoconnex_pid_from_river_name net river_name = Except.error PyError.typeError ∧
      get_datasets_for_geoconnex_pid net pid = Except.error PyError.typeError) ∧
    (r.truthy = true → r.member "results" = Except.ok true →
      get_geoconnex_pid_from_river_name net river_name ≠
        Except.error PyError.assertionError ∧
      get_datasets_for_geoconnex_pid net pid ≠ Except.error PyError.assertionError) := by
  have hP := pid_tool_shape net river_name r hsP hjP
  have hD := datasets_tool_shape net pid r hsD hjD
  refine ⟨fun ht => ⟨?_, ?_⟩, fun hm => ⟨?_, ?_⟩,
    fun ht hm => ⟨?_, ?_⟩, fun ht hm => ⟨?_, ?_⟩⟩
  · rw [hP]; exact pid_result_shape_falsy r ht
  · rw [hD]; exact datasets_result_shape_falsy r ht
  · rw [hP]; exact pid_result_shape_member_false r hm
  · rw [hD]; exact datasets_result_shape_member_false r hm
  · rw [hP]; exact pid_result_shape_member_typeErr r ht hm
  · rw [hD]; exact datasets_result_shape_member_typeErr r ht hm
  · rw [hP]; exact pid_result_shape_no_assertion r ht hm
  · rw [hD]; exact datasets_result_shape_no_assertion r ht hm

/-- C7 (counterexample): the body `5` parses to a truthy value that has
no "results" key, yet both tools fail with a `TypeError` from the
membership test `"results" in result`, not with the claimed
`AssertionError`. -/
theorem C7_counterexample_truthy_scalar :
    (Json.num 5).truthy = true ∧
    (Json.num 5).member "results" = Except.error PyError.typeError ∧
    get_geoconnex_pid_from_river_name netTruthyNum "Snake" =
      Except.error PyError.typeError ∧
    get_datasets_for_geoconnex_pid netTruthyNum "p" = Except.error PyError.typeError ∧
    PyError.typeError ≠ PyError.assertionError :=
  ⟨rfl, rfl, rfl, rfl, by decide⟩

/-- C7 (witness): a truthy object without "results" makes both tools
fail the assertion, and a well-formed result reaches neither assertion. -/
theorem C7_assertion_behavior_witness :
    get_geoconnex_pid_from_river_name netNoResults "Snake" =
      Except.error PyError.assertionError ∧
    get_datasets_for_geoconnex_pid netNoResults "p" =
      Except.error PyError.assertionError ∧
    get_geoconnex_pid_from_river_name netSnake "Snake" ≠
      Except.error PyError.assertionError :=
  ⟨((C7_assertion_behavior netNoResults "Snake" "p"
      (Json.obj [("status", Json.str "done")])
      (by decide) rfl (by decide) rfl).2.1 rfl).1,
   ((C7_assertion_behavior netNoResults "Snake" "p"
      (Json.obj [("status", Json.str "done")])
      (by decide) rfl (by decide) rfl).2.1 rfl).2,
   ((C7_assertion_behavior netSnake "Snake" "p"
      (Json.obj [("results",
        Json.obj [("bindings", Json.arr [snake_binding1, snake_binding2])])])
      (by decide) rfl (by decide) rfl).2.2.2 rfl rfl).1⟩

/-- C1 (witness): the Snake mock returns the first binding's mainstem
value (ignoring the second binding); the zero-binding mock returns the
sentinel. -/
theorem C1_first_binding_pid_witness :
    get_geoconnex_pid_from_river_name netSnake "Snake" =
      Except.ok (Json.str "https://geoconnex.us/ref/mainstems/123") ∧
    get_geoconnex_pid_from_river_name netEmptyBindings "Colorado" =
      Except.ok (Json.str "No PID found") :=
  ⟨(C1_first_binding_pid netSnake "Snake"
      [("results", Json.obj [("bindings", Json.arr [snake_binding1, snake_binding2])])]
      [("bindings", Json.arr [snake_binding1, snake_binding2])]
      [("mainstem", Json.obj [("value", Json.str "https://geoconnex.us/ref/mainstems/123")])]
      [("value", Json.str "https://geoconnex.us/ref/mainstems/123")]
      [snake_binding2]
      (Json.str "https://geoconnex.us/ref/mainstems/123")
      (by decide) rfl rfl rfl).1 rfl rfl rfl,
   (C1_first_binding_pid netEmptyBindings "Colorado"
      [("results", Json.obj [("bindings", Json.arr [])])]
      [("bindings", Json.arr [])] [] [] [] Json.null
      (by decide) rfl rfl rfl).2 rfl⟩

/-- C6 (witness): a two-binding mocked result is returned as that exact
two-element list. -/
theorem C6_datasets_bindings_unmodified_witness :
    get_datasets_for_geoconnex_pid netSnake "https://geoconnex.us/ref/mainstems/123" =
      Except.ok (Json.arr [snake_binding1, snake_binding2]) :=
  C6_datasets_bindings_unmodified netSnake "https://geoconnex.us/ref/mainstems/123"
    [("results", Json.obj [("bindings", Json.arr [snake_binding1, snake_binding2])])]
    [("bindings", Json.arr [snake_binding1, snake_binding2])]
    [snake_binding1, snake_binding2]
    (by decide) rfl rfl rfl rfl

/-- C10 (witness): a result whose "results" object has no "bindings" key
raises `KeyError "bindings"` instead of returning the sentinel. -/
theorem C10_missing_keys_raise_witness :
    get_geoconnex_pid_from_river_name netMissingBindings "Snake" =
      Except.error (PyError.keyError "bindings") :=
  (C10_missing_keys_raise netMissingBindings "Snake"
    [("results", Json.obj [("other", Json.null)])]
    [("other", Json.null)]
    (by decide) rfl rfl rfl).1 rfl

/-- C8 (witness): a river name carrying SPARQL syntax is sent verbatim:
an endpoint that only recognises the exact verbatim-substituted query
behaves like one that always answers, so no escaping intervened. -/
theorem C8_verbatim_substitution_witness :
    get_geoconnex_pid_from_river_name netInjection injection_name =
      get_geoconnex_pid_from_river_name netOkEmptyObj injection_name :=
  C8_verbatim_substitution.2.2.1 netInjection netOkEmptyObj injection_name
    (by simp [netInjection, netOkEmptyObj])
